import Mathlib

/-!
Shallow embedding of the `universal-nft` Solana/Anchor program
(`programs/universal-nft/src/`), covering the data model
(`state/nft_state.rs`, `state/cross_chain_state.rs`, `error.rs`), the TSS
placeholder oracle (`utils/security.rs`) and the four state-mutating
instructions (`instructions/initialize.rs`, `mint_nft.rs`,
`cross_chain_transfer.rs`, `receive_cross_chain.rs`).

Machine integers (`u64`) are modelled as `Nat` with explicit `2 ^ 64`
bounds where overflow matters; `Pubkey` is an opaque identifier modelled
as `Nat`; Rust `Vec<u8>` / `String` payloads are byte lists (`List Nat`),
since only their lengths and raw bytes matter to the program. PDA `bump`
fields are framework bookkeeping with no program logic and are omitted.
-/

namespace UniversalNft

/-- Opaque account / public-key identifier (`Pubkey` in the source). -/
abbrev Pubkey := Nat

/-- Raw byte payload (`Vec<u8>` or the bytes of a `String` in the source). -/
abbrev Bytes := List Nat

/-- Source `error.rs`: the program's error enum `UniversalNftError`. -/
inductive UniversalNftError where
  | ProgramNotInitialized
  | CrossChainPaused
  | CrossChainNotEnabled
  | NftLocked
  | InsufficientTokens
  | InvalidGateway
  | InvalidTssAuthority
  | InvalidNonce
  | InvalidRecipientAddress
  | UnsupportedChain
  | InvalidMint
  | InvalidTssSignature
  | ArithmeticOverflow
  | Unauthorized
  | InvalidMetadataUri
  | ComputeBudgetExceeded
deriving DecidableEq

/-- A transaction-level failure: either an Anchor account-resolution
failure (a required account is missing, or an `init` account already
exists) or a program error raised by a constraint or `require!`. -/
inductive TxError where
  | accountNotFound
  | accountInUse
  | nft (e : UniversalNftError)
deriving DecidableEq

/-- Source `state/nft_state.rs`: `ProgramState` (program-wide summary record). -/
structure ProgramState where
  authority : Pubkey
  is_initialized : Bool
  total_nfts_minted : Nat
  cross_chain_transfers : Nat
deriving DecidableEq

/-- Source `state/cross_chain_state.rs`: `CrossChainConfig` (singleton configuration). -/
structure CrossChainConfig where
  gateway_address : Pubkey
  tss_address : Pubkey
  chain_id : Nat
  is_paused : Bool
  nonce_counter : Nat
deriving DecidableEq

/-- Source `state/nft_state.rs`: `NftMetadata` (one per minted asset). -/
structure NftMetadata where
  mint : Pubkey
  original_owner : Pubkey
  current_owner : Pubkey
  metadata_uri : Bytes
  name : Bytes
  symbol : Bytes
  cross_chain_enabled : Bool
  is_locked : Bool
  origin_chain_id : Nat
  creation_timestamp : Int
deriving DecidableEq

/-- Source `state/cross_chain_state.rs`: `CrossChainTransfer` (outbound transfer
record, keyed by `(mint, nonce)` PDA seeds). `status`: 0 Pending,
1 Completed, 2 Failed. -/
structure CrossChainTransfer where
  mint : Pubkey
  original_owner : Pubkey
  destination_chain_id : Nat
  recipient_address : Bytes
  nonce : Nat
  timestamp : Int
  status : Nat
deriving DecidableEq

/-- Source `state/cross_chain_state.rs`: `CrossChainReceipt` (inbound receipt,
keyed by `(origin_tx_hash, nonce)` PDA seeds). -/
structure CrossChainReceipt where
  origin_chain_id : Nat
  origin_tx_hash : Bytes
  mint : Pubkey
  recipient : Pubkey
  original_owner : Bytes
  nonce : Nat
  timestamp : Int
  tss_signature : Bytes
deriving DecidableEq

/-- The on-ledger state the program touches: the two singletons, the
per-asset metadata accounts, the transfer and receipt records, and the
SPL token balances, modelled as an association list
`(mint, owner) -> amount`. -/
structure LedgerState where
  program_state : ProgramState
  cross_chain_config : CrossChainConfig
  nfts : List NftMetadata
  transfers : List CrossChainTransfer
  receipts : List CrossChainReceipt
  balances : List (Pubkey × Pubkey × Nat)
deriving DecidableEq

/-- Resolve the `NftMetadata` PDA for a mint (seeds `[b"nft_metadata", mint]`). -/
def lookupNft : List NftMetadata → Pubkey → Option NftMetadata
  | [], _ => none
  | n :: rest, k => if n.mint = k then some n else lookupNft rest k

/-- Replace the `NftMetadata` record for a mint. -/
def setNft : List NftMetadata → Pubkey → NftMetadata → List NftMetadata
  | [], _, _ => []
  | n :: rest, k, nv => if n.mint = k then nv :: rest else n :: setNft rest k nv

/-- SPL token balance of `owner` for `mint` (0 when no token account). -/
def lookupBalance : List (Pubkey × Pubkey × Nat) → Pubkey → Pubkey → Nat
  | [], _, _ => 0
  | (m, o, a) :: rest, mint, owner =>
    if m = mint ∧ o = owner then a else lookupBalance rest mint owner

/-- Whether a `CrossChainTransfer` PDA already exists for `(mint, nonce)`. -/
def hasTransferRecord : List CrossChainTransfer → Pubkey → Nat → Bool
  | [], _, _ => false
  | t :: rest, m, n =>
    if t.mint = m ∧ t.nonce = n then true else hasTransferRecord rest m n

/-- Whether a `CrossChainReceipt` PDA already exists for `(origin_tx_hash, nonce)`. -/
def hasReceipt : List CrossChainReceipt → Bytes → Nat → Bool
  | [], _, _ => false
  | r :: rest, h, n =>
    if r.origin_tx_hash = h ∧ r.nonce = n then true else hasReceipt rest h n

/-- Rust `u64::checked_add`: `none` exactly when the mathematical sum
leaves the `u64` range. -/
def checked_add (a b : Nat) : Option Nat :=
  if a + b < 2 ^ 64 then some (a + b) else none

/-- Source `u64::to_le_bytes`: the 8 little-endian base-256 digits of `n`. -/
def u64_le_bytes (n : Nat) : Bytes :=
  (List.range 8).map (fun i => n / 256 ^ i % 256)

/-- Recombine a little-endian byte list into the number it encodes. -/
def le_decode : Bytes → Nat
  | [] => 0
  | b :: rest => b + 256 * le_decode rest

/-- Source `utils/security.rs`: `verify_tss_signature`. Demo placeholder: rejects
an empty signature, then an empty message (both `InvalidTssSignature`),
and otherwise returns `true` without inspecting `tss_address`. -/
def verify_tss_signature (message : Bytes) (signature : Bytes)
    (tss_address : Pubkey) : Except UniversalNftError Bool :=
  if signature = [] then .error .InvalidTssSignature
  else if message = [] then .error .InvalidTssSignature
  else
    let _ := tss_address
    .ok true

/-- Source `receive_cross_chain.rs` lines 96–103: the message signed by the TSS,
built by successive `extend_from_slice` calls on an empty `Vec`. -/
def build_transfer_message (origin_chain_id : Nat) (origin_tx_hash : Bytes)
    (metadata_uri : Bytes) (nm : Bytes) (sym : Bytes)
    (original_owner : Bytes) (nonce : Nat) : Bytes :=
  let message : Bytes := []
  let message := message ++ u64_le_bytes origin_chain_id
  let message := message ++ origin_tx_hash
  let message := message ++ metadata_uri
  let message := message ++ nm
  let message := message ++ sym
  let message := message ++ original_owner
  let message := message ++ u64_le_bytes nonce
  message

/-- Source `instructions/initialize.rs`: `handler`. Creates the two singletons
with zeroed counters, `is_paused = false`, `nonce_counter = 0`. -/
def setup_program (authority : Pubkey) (gateway_address : Pubkey)
    (tss_address : Pubkey) (chain_id : Nat) : LedgerState :=
  { program_state :=
      { authority := authority
        is_initialized := true
        total_nfts_minted := 0
        cross_chain_transfers := 0 }
    cross_chain_config :=
      { gateway_address := gateway_address
        tss_address := tss_address
        chain_id := chain_id
        is_paused := false
        nonce_counter := 0 }
    nfts := []
    transfers := []
    receipts := []
    balances := [] }

/-- Source `instructions/mint_nft.rs`: Anchor account constraints (program
initialized, fresh mint / metadata PDA) followed by `handler` in source
order: length checks, `mint_to` of 1 token, metadata writes
(`is_locked = false`, `origin_chain_id = 7565164` hardcoded), then the
checked increment of `total_nfts_minted`. -/
def mint_nft (s : LedgerState) (authority : Pubkey) (mint : Pubkey)
    (metadata_uri : Bytes) (nm : Bytes) (sym : Bytes)
    (cross_chain_enabled : Bool) (now : Int) : Except TxError LedgerState :=
  if s.program_state.is_initialized = false then .error (.nft .ProgramNotInitialized)
  else if (lookupNft s.nfts mint).isSome = true then .error .accountInUse
  else if metadata_uri.length > 200 then .error (.nft .InvalidMetadataUri)
  else if nm.length > 32 then .error (.nft .InvalidMetadataUri)
  else if sym.length > 10 then .error (.nft .InvalidMetadataUri)
  else
    let s1 := { s with balances := (mint, authority, 1) :: s.balances }
    let newNft : NftMetadata :=
      { mint := mint
        original_owner := authority
        current_owner := authority
        metadata_uri := metadata_uri
        name := nm
        symbol := sym
        cross_chain_enabled := cross_chain_enabled
        is_locked := false
        origin_chain_id := 7565164
        creation_timestamp := now }
    let s2 := { s1 with nfts := newNft :: s1.nfts }
    match checked_add s2.program_state.total_nfts_minted 1 with
    | none => .error (.nft .ArithmeticOverflow)
    | some n2 =>
      .ok { s2 with program_state := { s2.program_state with total_nfts_minted := n2 } }

/-- Source `instructions/cross_chain_transfer.rs`: Anchor account constraints in
declaration order (program initialized, config not paused, asset
cross-chain-enabled and unlocked, fresh `(mint, nonce)` transfer PDA,
token balance ≥ 1), then `handler`: nonce, recipient-length and
destination-chain checks (`require!` order of the source; the destination
check compares against the hardcoded constant 7565164), the lock + record
writes, and the checked increment of `cross_chain_transfers`. -/
def initiate_transfer_checked (s : LedgerState) (owner : Pubkey)
    (mint : Pubkey) (now : Int) (destination_chain_id : Nat)
    (recipient_address : Bytes) (nonce : Nat) (nftm : NftMetadata) :
    Except TxError LedgerState :=
  if nftm.cross_chain_enabled = false then .error (.nft .CrossChainNotEnabled)
  else if nftm.is_locked = true then .error (.nft .NftLocked)
  else if hasTransferRecord s.transfers mint nonce = true then .error .accountInUse
  else if lookupBalance s.balances mint owner < 1 then .error (.nft .InsufficientTokens)
  else if ¬ nonce > s.cross_chain_config.nonce_counter then .error (.nft .InvalidNonce)
  else if ¬ (recipient_address.length ≤ 64 ∧ recipient_address ≠ []) then
    .error (.nft .InvalidRecipientAddress)
  else if ¬ (destination_chain_id > 0 ∧ destination_chain_id ≠ 7565164) then
    .error (.nft .UnsupportedChain)
  else
    let lockedNft := { nftm with is_locked := true, current_owner := owner }
    let s1 := { s with nfts := setNft s.nfts mint lockedNft }
    let tr : CrossChainTransfer :=
      { mint := mint
        original_owner := owner
        destination_chain_id := destination_chain_id
        recipient_address := recipient_address
        nonce := nonce
        timestamp := now
        status := 0 }
    let s2 := { s1 with transfers := tr :: s1.transfers }
    match checked_add s2.program_state.cross_chain_transfers 1 with
    | none => .error (.nft .ArithmeticOverflow)
    | some n2 =>
      .ok { s2 with
            program_state :=
              { s2.program_state with cross_chain_transfers := n2 } }

/-- Entry point of `instructions/cross_chain_transfer.rs`: resolves the
singleton constraints and the `nft_metadata` account, then continues with
`initiate_transfer_checked`. -/
def initiate_transfer (s : LedgerState) (owner : Pubkey) (mint : Pubkey)
    (now : Int) (destination_chain_id : Nat) (recipient_address : Bytes)
    (nonce : Nat) : Except TxError LedgerState :=
  if s.program_state.is_initialized = false then .error (.nft .ProgramNotInitialized)
  else if s.cross_chain_config.is_paused = true then .error (.nft .CrossChainPaused)
  else
    match lookupNft s.nfts mint with
    | none => .error .accountNotFound
    | some nftm =>
      initiate_transfer_checked s owner mint now destination_chain_id
        recipient_address nonce nftm

/-- Source `instructions/receive_cross_chain.rs`: Anchor account constraints
(program initialized, config not paused, fresh mint / metadata PDA, fresh
`(origin_tx_hash, nonce)` receipt PDA), then `handler` in source order:
the six length checks, TSS message construction and oracle call,
`mint_to` of 1 token to the recipient, metadata writes
(`cross_chain_enabled = true`, `is_locked = false`, provenance
`origin_chain_id`), receipt creation, and the checked increment of
`total_nfts_minted`. -/
def receive_cross_chain (s : LedgerState) (authority : Pubkey)
    (recipient : Pubkey) (mint : Pubkey) (now : Int)
    (origin_chain_id : Nat) (origin_tx_hash : Bytes) (metadata_uri : Bytes)
    (nm : Bytes) (sym : Bytes) (original_owner : Bytes)
    (tss_signature : Bytes) (nonce : Nat) : Except TxError LedgerState :=
  if s.program_state.is_initialized = false then .error (.nft .ProgramNotInitialized)
  else if s.cross_chain_config.is_paused = true then .error (.nft .CrossChainPaused)
  else if (lookupNft s.nfts mint).isSome = true then .error .accountInUse
  else if hasReceipt s.receipts origin_tx_hash nonce = true then .error .accountInUse
  else if metadata_uri.length > 200 then .error (.nft .InvalidMetadataUri)
  else if nm.length > 32 then .error (.nft .InvalidMetadataUri)
  else if sym.length > 10 then .error (.nft .InvalidMetadataUri)
  else if ¬ (origin_tx_hash ≠ [] ∧ origin_tx_hash.length ≤ 64) then
    .error (.nft .InvalidMetadataUri)
  else if ¬ (original_owner ≠ [] ∧ original_owner.length ≤ 64) then
    .error (.nft .InvalidMetadataUri)
  else if ¬ (tss_signature ≠ [] ∧ tss_signature.length ≤ 128) then
    .error (.nft .InvalidTssSignature)
  else
    let message :=
      build_transfer_message origin_chain_id origin_tx_hash metadata_uri nm
        sym original_owner nonce
    match verify_tss_signature message tss_signature s.cross_chain_config.tss_address with
    | .error e => .error (.nft e)
    | .ok is_valid =>
      if is_valid = false then .error (.nft .InvalidTssSignature)
      else
        let s1 := { s with balances := (mint, recipient, 1) :: s.balances }
        let newNft : NftMetadata :=
          { mint := mint
            original_owner := recipient
            current_owner := recipient
            metadata_uri := metadata_uri
            name := nm
            symbol := sym
            cross_chain_enabled := true
            is_locked := false
            origin_chain_id := origin_chain_id
            creation_timestamp := now }
        let s2 := { s1 with nfts := newNft :: s1.nfts }
        let rcpt : CrossChainReceipt :=
          { origin_chain_id := origin_chain_id
            origin_tx_hash := origin_tx_hash
            mint := mint
            recipient := recipient
            original_owner := original_owner
            nonce := nonce
            timestamp := now
            tss_signature := tss_signature }
        let s3 := { s2 with receipts := rcpt :: s2.receipts }
        match checked_add s3.program_state.total_nfts_minted 1 with
        | none => .error (.nft .ArithmeticOverflow)
        | some n2 =>
          .ok { s3 with
                program_state :=
                  { s3.program_state with total_nfts_minted := n2 } }

/-- Modelled from the spec: the host ledger's atomic commit-or-abort
transaction semantics (spec §5 — "each of §4's operations is a single
atomic unit"). The Solana runtime that rolls back all account writes of a
failed instruction is not part of this repository's sources, so the
commit step is modelled here: the post-state of a failed `mint_nft`
transaction is the pre-state. -/
def commit_mint_nft (s : LedgerState) (authority : Pubkey) (mint : Pubkey)
    (metadata_uri : Bytes) (nm : Bytes) (sym : Bytes)
    (cross_chain_enabled : Bool) (now : Int) : LedgerState :=
  match mint_nft s authority mint metadata_uri nm sym cross_chain_enabled now with
  | .ok s2 => s2
  | .error _ => s

/-- Modelled from the spec: atomic commit-or-abort for
`initiate_transfer`, as for `commit_mint_nft`. -/
def commit_initiate_transfer (s : LedgerState) (owner : Pubkey)
    (mint : Pubkey) (now : Int) (destination_chain_id : Nat)
    (recipient_address : Bytes) (nonce : Nat) : LedgerState :=
  match initiate_transfer s owner mint now destination_chain_id recipient_address nonce with
  | .ok s2 => s2
  | .error _ => s

/-- Modelled from the spec: atomic commit-or-abort for
`receive_cross_chain`, as for `commit_mint_nft`. -/
def commit_receive_cross_chain (s : LedgerState) (authority : Pubkey)
    (recipient : Pubkey) (mint : Pubkey) (now : Int) (origin_chain_id : Nat)
    (origin_tx_hash : Bytes) (metadata_uri : Bytes) (nm : Bytes)
    (sym : Bytes) (original_owner : Bytes) (tss_signature : Bytes)
    (nonce : Nat) : LedgerState :=
  match receive_cross_chain s authority recipient mint now origin_chain_id
      origin_tx_hash metadata_uri nm sym original_owner tss_signature nonce with
  | .ok s2 => s2
  | .error _ => s


/-- Decidable equality of transaction results, so concrete runs of the
operations can be settled by `decide`. -/
instance instDecEqExcept {e a : Type} [DecidableEq e] [DecidableEq a] :
    DecidableEq (Except e a) := fun x y =>
  match x, y with
  | .ok u, .ok v =>
    if h : u = v then isTrue (by rw [h])
    else isFalse (fun hc => h (Except.ok.inj hc))
  | .error u, .error v =>
    if h : u = v then isTrue (by rw [h])
    else isFalse (fun hc => h (Except.error.inj hc))
  | .ok _, .error _ => isFalse (fun hc => Except.noConfusion hc)
  | .error _, .ok _ => isFalse (fun hc => Except.noConfusion hc)

/-- Demo fixture: a freshly initialized ledger with home chain id 1. -/
def demo_init : LedgerState := setup_program 100 101 102 1

/-- Demo fixture: initialized ledger (home chain id 1) with two
cross-chain-enabled assets, mints 50 and 51, owned by account 7. -/
def demo_two_nfts : LedgerState :=
  commit_mint_nft (commit_mint_nft demo_init 7 50 [1] [2] [3] true 0) 7 51 [1] [2] [3] true 0

/-- Demo fixture: initialized ledger whose configured home chain id is 2,
with one cross-chain-enabled asset (mint 50) owned by account 7. -/
def demo_home2 : LedgerState :=
  commit_mint_nft (setup_program 100 101 102 2) 7 50 [1] [2] [3] true 0

/-- Demo fixture: an uninitialized ledger. -/
def demo_uninit : LedgerState :=
  { demo_init with
    program_state := { demo_init.program_state with is_initialized := false } }

/-- Demo fixture: ledger whose global counters sit at the `u64` maximum. -/
def demo_max : LedgerState :=
  { demo_two_nfts with
    program_state :=
      { demo_two_nfts.program_state with
        total_nfts_minted := 2 ^ 64 - 1
        cross_chain_transfers := 2 ^ 64 - 1 } }

theorem u64_le_bytes_length (x : Nat) : (u64_le_bytes x).length = 8 := by
  simp [u64_le_bytes]

theorem u64_le_bytes_ne_nil (x : Nat) : u64_le_bytes x ≠ [] := by
  intro h
  have hl := u64_le_bytes_length x
  rw [h] at hl
  simp at hl

theorem build_transfer_message_ne_nil (a : Nat) (b c d e f : Bytes) (g : Nat) :
    build_transfer_message a b c d e f g ≠ [] := by
  intro h
  simp only [build_transfer_message, List.nil_append, List.append_assoc] at h
  exact u64_le_bytes_ne_nil a (List.append_eq_nil.mp h).1

/-- Little-endian base-256 digit extraction round-trips: decoding the
first `k` digits of `x` recovers `x` modulo `256 ^ k`. -/
theorem le_decode_digits (k : Nat) : ∀ x : Nat,
    le_decode ((List.range k).map (fun i => x / 256 ^ i % 256)) = x % 256 ^ k := by
  induction k with
  | zero => intro x; simp [le_decode, Nat.mod_one]
  | succ n ih =>
    intro x
    rw [List.range_succ_eq_map]
    simp only [List.map_cons, List.map_map]
    have h1 : (List.range n).map ((fun i => x / 256 ^ i % 256) ∘ (· + 1))
        = (List.range n).map (fun i => x / 256 / 256 ^ i % 256) := by
      apply List.map_congr_left
      intro i _
      simp only [Function.comp]
      rw [pow_succ', ← Nat.div_div_eq_div_mul]
    rw [h1, le_decode, ih (x / 256)]
    rw [pow_succ', Nat.mod_mul]
    simp [pow_zero, Nat.div_one]


/-- C10: the result of `verify_tss_signature` is independent of its
trusted-signer argument — for every message and signature, any two
trusted-signer addresses yield the same result, so the configured trusted
signer never influences whether an inbound message is accepted. -/
theorem verify_tss_signature_ignores_signer (message signature : Bytes)
    (a1 a2 : Pubkey) :
    verify_tss_signature message signature a1
      = verify_tss_signature message signature a2 := rfl

/-- C4: `verify_tss_signature` returns an error (`InvalidTssSignature`)
when the message is empty or the signature is empty, and returns `true`
for every non-empty message paired with every non-empty signature,
regardless of their contents. -/
theorem verify_tss_signature_spec (message signature : Bytes) (a : Pubkey) :
    ((message = [] ∨ signature = []) →
      verify_tss_signature message signature a = .error .InvalidTssSignature)
    ∧ (message ≠ [] → signature ≠ [] →
      verify_tss_signature message signature a = .ok true) := by
  constructor
  · rintro (h | h) <;> simp [verify_tss_signature, h, ite_self]
  · intro hm hs
    simp [verify_tss_signature, hm, hs]

/-- Concrete instantiation of `verify_tss_signature_spec`: an empty
message is rejected, and a one-byte message with a one-byte signature is
accepted. -/
theorem verify_tss_signature_spec_witness :
    verify_tss_signature [] [1] 0 = .error .InvalidTssSignature
    ∧ verify_tss_signature [1] [2] 0 = .ok true :=
  ⟨(verify_tss_signature_spec [] [1] 0).1 (Or.inl rfl),
   (verify_tss_signature_spec [1] [2] 0).2 (by decide) (by decide)⟩

/-- C6: the message handed to the authorization oracle in
`receive_cross_chain` is exactly the concatenation, in this order, of the
origin chain id as 8 little-endian bytes, the origin tx hash bytes, the
URI bytes, the name bytes, the symbol bytes, the original-owner bytes and
the nonce as 8 little-endian bytes, for every combination of inputs; the
two numeric fields are genuine 8-byte little-endian encodings (decoding
them recovers the value mod `2 ^ 64`). -/
theorem transfer_message_concatenation (origin_chain_id : Nat)
    (origin_tx_hash metadata_uri nm sym original_owner : Bytes) (nonce : Nat) :
    build_transfer_message origin_chain_id origin_tx_hash metadata_uri nm sym
        original_owner nonce
      = u64_le_bytes origin_chain_id ++ origin_tx_hash ++ metadata_uri ++ nm
          ++ sym ++ original_owner ++ u64_le_bytes nonce
    ∧ (u64_le_bytes origin_chain_id).length = 8
    ∧ (u64_le_bytes nonce).length = 8
    ∧ le_decode (u64_le_bytes origin_chain_id) = origin_chain_id % 2 ^ 64
    ∧ le_decode (u64_le_bytes nonce) = nonce % 2 ^ 64 := by
  have h64 : (256 : Nat) ^ 8 = 2 ^ 64 := by norm_num
  refine ⟨?_, u64_le_bytes_length _, u64_le_bytes_length _, ?_, ?_⟩
  · simp [build_transfer_message, List.append_assoc]
  · rw [u64_le_bytes, le_decode_digits 8 origin_chain_id, h64]
  · rw [u64_le_bytes, le_decode_digits 8 nonce, h64]

/-- C5: whenever `mint_nft`, `initiate_transfer` or `receive_cross_chain`
returns an error, the committed post-state equals the pre-state: no
record is created or mutated, no counter is advanced and no token is
minted, including when the error (such as `ArithmeticOverflow` on a
counter) is raised after earlier steps of the handler body have already
written to the working copy of the state. -/
theorem error_implies_no_state_change :
    (∀ s a m u nm sy c t e, mint_nft s a m u nm sy c t = .error e →
        commit_mint_nft s a m u nm sy c t = s)
    ∧ (∀ s o m t d r n e, initiate_transfer s o m t d r n = .error e →
        commit_initiate_transfer s o m t d r n = s)
    ∧ (∀ s a rc m t oc oh u nm sy ow sg n e,
        receive_cross_chain s a rc m t oc oh u nm sy ow sg n = .error e →
        commit_receive_cross_chain s a rc m t oc oh u nm sy ow sg n = s) := by
  refine ⟨?_, ?_, ?_⟩
  · intro s a m u nm sy c t e h
    unfold commit_mint_nft
    rw [h]
  · intro s o m t d r n e h
    unfold commit_initiate_transfer
    rw [h]
  · intro s a rc m t oc oh u nm sy ow sg n e h
    unfold commit_receive_cross_chain
    rw [h]

/-- Concrete instantiation of `error_implies_no_state_change`: a mint on
an uninitialized ledger, a transfer with a stale nonce and a receive with
an empty signature each leave the ledger exactly as it was. -/
theorem error_implies_no_state_change_witness :
    commit_mint_nft demo_uninit 7 60 [1] [2] [3] true 0 = demo_uninit
    ∧ commit_initiate_transfer demo_two_nfts 7 50 5 2 [170] 0 = demo_two_nfts
    ∧ commit_receive_cross_chain demo_init 7 9 60 0 2 [1] [1] [2] [3] [4] [] 5
        = demo_init :=
  ⟨error_implies_no_state_change.1 demo_uninit 7 60 [1] [2] [3] true 0
      (.nft .ProgramNotInitialized) (by decide),
   error_implies_no_state_change.2.1 demo_two_nfts 7 50 5 2 [170] 0
      (.nft .InvalidNonce) (by decide),
   error_implies_no_state_change.2.2 demo_init 7 9 60 0 2 [1] [1] [2] [3] [4] [] 5
      (.nft .InvalidTssSignature) (by decide)⟩

set_option maxHeartbeats 2000000 in
/-- Inversion of a successful `initiate_transfer`: the nonce guard was
passed, the configuration singleton is untouched, the minted counter is
untouched and the outbound counter was incremented without overflow. -/
theorem initiate_transfer_ok_inv (s : LedgerState) (owner mint : Pubkey)
    (now : Int) (dest : Nat) (recip : Bytes) (nonce : Nat) (s2 : LedgerState)
    (h : initiate_transfer s owner mint now dest recip nonce = .ok s2) :
    s.cross_chain_config.nonce_counter < nonce
    ∧ s2.cross_chain_config = s.cross_chain_config
    ∧ s2.program_state.total_nfts_minted = s.program_state.total_nfts_minted
    ∧ s2.program_state.cross_chain_transfers
        = s.program_state.cross_chain_transfers + 1
    ∧ s.program_state.cross_chain_transfers + 1 < 2 ^ 64 := by
  unfold initiate_transfer initiate_transfer_checked at h
  repeat' split at h
  all_goals try simp_all
  cases hca : checked_add s.program_state.cross_chain_transfers 1 with
  | none =>
    rw [hca] at h
    simp at h
  | some n2 =>
    rw [hca] at h
    simp only [Except.ok.injEq] at h
    subst h
    unfold checked_add at hca
    split at hca
    · simp only [Option.some.injEq] at hca
      subst hca
      repeat' apply And.intro
      all_goals first | rfl | omega
    · exact absurd hca (by simp)

set_option maxHeartbeats 2000000 in
/-- C2: a successful `initiate_transfer` never changes
`Configuration.nonce_counter` (the outbound path does not advance the
counter), and consequently two successful transfers of different assets
(mints 50 and 51) may use the same nonce value (5). -/
theorem nonce_counter_frame_and_reuse :
    (∀ s owner mint now dest recip nonce s2,
        initiate_transfer s owner mint now dest recip nonce = .ok s2 →
        s2.cross_chain_config.nonce_counter
          = s.cross_chain_config.nonce_counter)
    ∧ (initiate_transfer demo_two_nfts 7 50 5 2 [170] 5).isOk = true
    ∧ (initiate_transfer (commit_initiate_transfer demo_two_nfts 7 50 5 2 [170] 5)
        7 51 5 2 [170] 5).isOk = true := by
  refine ⟨?_, by decide, by decide⟩
  intro s owner mint now dest recip nonce s2 h
  rw [(initiate_transfer_ok_inv s owner mint now dest recip nonce s2 h).2.1]

/-- Demo fixture: `demo_two_nfts` after a successful transfer of mint 50
with nonce 5. -/
def demo_after_first : LedgerState :=
  commit_initiate_transfer demo_two_nfts 7 50 5 2 [170] 5

/-- Concrete instantiation of `nonce_counter_frame_and_reuse`: the
transfer of mint 50 with nonce 5 leaves the nonce counter unchanged. -/
theorem nonce_counter_frame_and_reuse_witness :
    demo_after_first.cross_chain_config.nonce_counter
      = demo_two_nfts.cross_chain_config.nonce_counter :=
  nonce_counter_frame_and_reuse.1 demo_two_nfts 7 50 5 2 [170] 5
    demo_after_first (by decide)


set_option maxHeartbeats 2000000 in
/-- Inversion of a successful `mint_nft`: the created `AssetRecord` is
exactly the one written by the handler (unlocked, hardcoded origin chain
id 7565164), the minted counter was incremented without overflow, and the
configuration singleton is untouched. -/
theorem mint_nft_ok_inv (s : LedgerState) (a mint : Pubkey)
    (u nm sy : Bytes) (cce : Bool) (now : Int) (s2 : LedgerState)
    (h : mint_nft s a mint u nm sy cce now = .ok s2) :
    lookupNft s2.nfts mint = some
      { mint := mint, original_owner := a, current_owner := a,
        metadata_uri := u, name := nm, symbol := sy,
        cross_chain_enabled := cce, is_locked := false,
        origin_chain_id := 7565164, creation_timestamp := now }
    ∧ s2.program_state.total_nfts_minted
        = s.program_state.total_nfts_minted + 1
    ∧ s.program_state.total_nfts_minted + 1 < 2 ^ 64
    ∧ s2.cross_chain_config = s.cross_chain_config := by
  unfold mint_nft at h
  repeat' split at h
  all_goals try simp_all
  cases hca : checked_add s.program_state.total_nfts_minted 1 with
  | none =>
    rw [hca] at h
    simp at h
  | some n2 =>
    rw [hca] at h
    simp only [Except.ok.injEq] at h
    subst h
    unfold checked_add at hca
    split at hca
    · simp only [Option.some.injEq] at hca
      subst hca
      repeat' apply And.intro
      all_goals first | (simp [lookupNft]) | rfl | omega
    · exact absurd hca (by simp)

set_option maxHeartbeats 2000000 in
/-- Inversion of a successful `receive_cross_chain`: the created
`AssetRecord` is exactly the one written by the handler (always
cross-chain enabled, unlocked, provenance origin chain id), the minted
counter was incremented without overflow, and the configuration singleton
is untouched. -/
theorem receive_ok_inv (s : LedgerState) (a rc mint : Pubkey) (now : Int)
    (oc : Nat) (oh u nm sy ow sg : Bytes) (nonce : Nat) (s2 : LedgerState)
    (h : receive_cross_chain s a rc mint now oc oh u nm sy ow sg nonce = .ok s2) :
    lookupNft s2.nfts mint = some
      { mint := mint, original_owner := rc, current_owner := rc,
        metadata_uri := u, name := nm, symbol := sy,
        cross_chain_enabled := true, is_locked := false,
        origin_chain_id := oc, creation_timestamp := now }
    ∧ s2.program_state.total_nfts_minted
        = s.program_state.total_nfts_minted + 1
    ∧ s.program_state.total_nfts_minted + 1 < 2 ^ 64
    ∧ s2.cross_chain_config = s.cross_chain_config := by
  unfold receive_cross_chain at h
  by_cases h1 : s.program_state.is_initialized = false
  · rw [if_pos h1] at h; exact absurd h (by simp)
  rw [if_neg h1] at h
  by_cases h2 : s.cross_chain_config.is_paused = true
  · rw [if_pos h2] at h; exact absurd h (by simp)
  rw [if_neg h2] at h
  by_cases h3 : (lookupNft s.nfts mint).isSome = true
  · rw [if_pos h3] at h; exact absurd h (by simp)
  rw [if_neg h3] at h
  by_cases h4 : hasReceipt s.receipts oh nonce = true
  · rw [if_pos h4] at h; exact absurd h (by simp)
  rw [if_neg h4] at h
  by_cases h5 : u.length > 200
  · rw [if_pos h5] at h; exact absurd h (by simp)
  rw [if_neg h5] at h
  by_cases h6 : nm.length > 32
  · rw [if_pos h6] at h; exact absurd h (by simp)
  rw [if_neg h6] at h
  by_cases h7 : sy.length > 10
  · rw [if_pos h7] at h; exact absurd h (by simp)
  rw [if_neg h7] at h
  by_cases h8 : ¬ (oh ≠ [] ∧ oh.length ≤ 64)
  · rw [if_pos h8] at h; exact absurd h (by simp)
  rw [if_neg h8] at h
  by_cases h9 : ¬ (ow ≠ [] ∧ ow.length ≤ 64)
  · rw [if_pos h9] at h; exact absurd h (by simp)
  rw [if_neg h9] at h
  by_cases h10 : ¬ (sg ≠ [] ∧ sg.length ≤ 128)
  · rw [if_pos h10] at h; exact absurd h (by simp)
  rw [if_neg h10] at h
  simp only [] at h
  cases hv : verify_tss_signature (build_transfer_message oc oh u nm sy ow nonce)
      sg s.cross_chain_config.tss_address with
  | error e =>
    rw [hv] at h
    simp at h
  | ok is_valid =>
    rw [hv] at h
    by_cases hval : is_valid = false
    · simp [hval] at h
    · simp only [] at h
      rw [if_neg hval] at h
      cases hca : checked_add s.program_state.total_nfts_minted 1 with
      | none =>
        rw [hca] at h
        simp at h
      | some n2 =>
        rw [hca] at h
        simp only [Except.ok.injEq] at h
        subst h
        unfold checked_add at hca
        split at hca
        · simp only [Option.some.injEq] at hca
          subst hca
          repeat' apply And.intro
          all_goals first | rfl | omega | (simp [lookupNft]; done)
        · exact absurd hca (by simp)


/-- C1: against an initialized, unpaused configuration whose nonce
counter is c, with the asset-level account constraints satisfied,
`initiate_transfer` is rejected with `InvalidNonce` exactly when the
caller-supplied nonce satisfies `nonce ≤ c`, and every accepted outbound
transfer has `nonce > c`. -/
theorem nonce_check_rejects_iff_stale (s : LedgerState) (owner mint : Pubkey)
    (now : Int) (dest : Nat) (recip : Bytes) (nonce : Nat) (nftm : NftMetadata)
    (hinit : s.program_state.is_initialized = true)
    (hpause : s.cross_chain_config.is_paused = false)
    (hnft : lookupNft s.nfts mint = some nftm)
    (hen : nftm.cross_chain_enabled = true)
    (hlock : nftm.is_locked = false)
    (hrec : hasTransferRecord s.transfers mint nonce = false)
    (hbal : 1 ≤ lookupBalance s.balances mint owner) :
    (initiate_transfer s owner mint now dest recip nonce
        = .error (.nft .InvalidNonce)
      ↔ nonce ≤ s.cross_chain_config.nonce_counter)
    ∧ (∀ s2, initiate_transfer s owner mint now dest recip nonce = .ok s2 →
        s.cross_chain_config.nonce_counter < nonce) := by
  have hbal2 : ¬ lookupBalance s.balances mint owner < 1 := by omega
  constructor
  · unfold initiate_transfer
    rw [if_neg (by simp [hinit]), if_neg (by simp [hpause]), hnft]
    show initiate_transfer_checked s owner mint now dest recip nonce nftm
        = .error (.nft .InvalidNonce) ↔ nonce ≤ s.cross_chain_config.nonce_counter
    unfold initiate_transfer_checked
    rw [if_neg (by simp [hen]), if_neg (by simp [hlock]), if_neg (by simp [hrec]),
      if_neg hbal2]
    by_cases hn : nonce ≤ s.cross_chain_config.nonce_counter
    · rw [if_pos (by omega)]
      simp [hn]
    · rw [if_neg (by omega)]
      apply iff_of_false ?_ hn
      by_cases hr : ¬ (recip.length ≤ 64 ∧ recip ≠ [])
      · rw [if_pos hr]; simp
      rw [if_neg hr]
      by_cases hd : ¬ (dest > 0 ∧ dest ≠ 7565164)
      · rw [if_pos hd]; simp
      rw [if_neg hd]
      simp only []
      cases hca : checked_add s.program_state.cross_chain_transfers 1 with
      | none => simp
      | some n2 => simp
  · intro s2 h
    exact (initiate_transfer_ok_inv s owner mint now dest recip nonce s2 h).1

/-- Concrete instantiation of `nonce_check_rejects_iff_stale`: against
`demo_two_nfts` (counter 0), nonce 0 is rejected with `InvalidNonce`. -/
theorem nonce_check_rejects_iff_stale_witness :
    initiate_transfer demo_two_nfts 7 50 5 2 [170] 0
      = .error (.nft .InvalidNonce) :=
  (nonce_check_rejects_iff_stale demo_two_nfts 7 50 5 2 [170] 0
    { mint := 50, original_owner := 7, current_owner := 7,
      metadata_uri := [1], name := [2], symbol := [3],
      cross_chain_enabled := true, is_locked := false,
      origin_chain_id := 7565164, creation_timestamp := 0 }
    (by decide) (by decide) (by decide) (by decide) (by decide) (by decide)
    (by decide)).1.mpr (by decide)

/-- C3 fails on the code: the destination-chain guard compares against
the literal 7565164, not the configured home chain id. With home chain id
2, a transfer whose destination equals the home chain id (2) is accepted,
and a transfer to chain 7565164 (which is not the home chain) is rejected
with `UnsupportedChain`. -/
theorem unsupported_chain_counterexample :
    demo_home2.cross_chain_config.chain_id = 2
    ∧ (initiate_transfer demo_home2 7 50 5 2 [170] 1).isOk = true
    ∧ initiate_transfer demo_home2 7 50 5 7565164 [170] 1
        = .error (.nft .UnsupportedChain) := by decide

/-- C3 amended: for every `initiate_transfer` call that has passed the
nonce and recipient-address checks, the call is rejected with
`UnsupportedChain` exactly when the destination chain id is 0 or equals
the hardcoded constant 7565164 (the Solana chain id), regardless of the
configured home chain id. -/
theorem unsupported_chain_iff_zero_or_solana (s : LedgerState)
    (owner mint : Pubkey) (now : Int) (dest : Nat) (recip : Bytes)
    (nonce : Nat) (nftm : NftMetadata)
    (hinit : s.program_state.is_initialized = true)
    (hpause : s.cross_chain_config.is_paused = false)
    (hnft : lookupNft s.nfts mint = some nftm)
    (hen : nftm.cross_chain_enabled = true)
    (hlock : nftm.is_locked = false)
    (hrec : hasTransferRecord s.transfers mint nonce = false)
    (hbal : 1 ≤ lookupBalance s.balances mint owner)
    (hn : s.cross_chain_config.nonce_counter < nonce)
    (hr1 : recip.length ≤ 64) (hr2 : recip ≠ []) :
    initiate_transfer s owner mint now dest recip nonce
        = .error (.nft .UnsupportedChain)
      ↔ (dest = 0 ∨ dest = 7565164) := by
  have hbal2 : ¬ lookupBalance s.balances mint owner < 1 := by omega
  unfold initiate_transfer
  rw [if_neg (by simp [hinit]), if_neg (by simp [hpause]), hnft]
  show initiate_transfer_checked s owner mint now dest recip nonce nftm
      = .error (.nft .UnsupportedChain) ↔ (dest = 0 ∨ dest = 7565164)
  unfold initiate_transfer_checked
  rw [if_neg (by simp [hen]), if_neg (by simp [hlock]), if_neg (by simp [hrec]),
    if_neg hbal2, if_neg (by omega), if_neg (by simp [hr1, hr2])]
  by_cases hd : ¬ (dest > 0 ∧ dest ≠ 7565164)
  · rw [if_pos hd]
    exact iff_of_true rfl (by omega)
  · rw [if_neg hd]
    apply iff_of_false ?_ (by omega)
    simp only []
    cases hca : checked_add s.program_state.cross_chain_transfers 1 with
    | none => simp
    | some n2 => simp

/-- Concrete instantiation of `unsupported_chain_iff_zero_or_solana`:
against `demo_home2` (home chain id 2), destination 0 is rejected with
`UnsupportedChain`. -/
theorem unsupported_chain_iff_zero_or_solana_witness :
    initiate_transfer demo_home2 7 50 5 0 [170] 1
      = .error (.nft .UnsupportedChain) :=
  (unsupported_chain_iff_zero_or_solana demo_home2 7 50 5 0 [170] 1
    { mint := 50, original_owner := 7, current_owner := 7,
      metadata_uri := [1], name := [2], symbol := [3],
      cross_chain_enabled := true, is_locked := false,
      origin_chain_id := 7565164, creation_timestamp := 0 }
    (by decide) (by decide) (by decide) (by decide) (by decide) (by decide)
    (by decide) (by decide) (by decide) (by decide)).mpr (Or.inl rfl)


/-- C7 fails on the code: `mint_nft` hardcodes
`origin_chain_id = 7565164` and never reads the configured home chain id.
With home chain id 1, the created record's origin chain id is 7565164,
not 1. -/
theorem mint_origin_chain_counterexample :
    demo_init.cross_chain_config.chain_id = 1
    ∧ (mint_nft demo_init 7 50 [1] [2] [3] true 0).isOk = true
    ∧ (lookupNft (commit_mint_nft demo_init 7 50 [1] [2] [3] true 0).nfts 50).map
        NftMetadata.origin_chain_id = some 7565164 := by decide

/-- C7 amended: every successful `mint_nft` creates an `AssetRecord` with
`is_locked = false` and `origin_chain_id = 7565164` (the hardcoded Solana
chain id, regardless of the home chain id stored in the configuration),
and increases the global minted counter by exactly one. -/
theorem mint_effects_amended (s : LedgerState) (a mint : Pubkey)
    (u nm sy : Bytes) (cce : Bool) (now : Int) (s2 : LedgerState)
    (h : mint_nft s a mint u nm sy cce now = .ok s2) :
    (∃ rec, lookupNft s2.nfts mint = some rec
      ∧ rec.is_locked = false ∧ rec.origin_chain_id = 7565164)
    ∧ s2.program_state.total_nfts_minted
        = s.program_state.total_nfts_minted + 1 := by
  obtain ⟨h1, h2, _, _⟩ := mint_nft_ok_inv s a mint u nm sy cce now s2 h
  exact ⟨⟨_, h1, rfl, rfl⟩, h2⟩

/-- Demo fixture: `demo_init` after minting mint 50. -/
def demo_one_nft : LedgerState :=
  commit_mint_nft demo_init 7 50 [1] [2] [3] true 0

/-- Concrete instantiation of `mint_effects_amended` on `demo_init`. -/
theorem mint_effects_amended_witness :
    (∃ rec, lookupNft demo_one_nft.nfts 50 = some rec
      ∧ rec.is_locked = false ∧ rec.origin_chain_id = 7565164)
    ∧ demo_one_nft.program_state.total_nfts_minted
        = demo_init.program_state.total_nfts_minted + 1 :=
  mint_effects_amended demo_init 7 50 [1] [2] [3] true 0 demo_one_nft (by decide)

/-- C8 fails on the code: the six length bounds are not reported with one
named error kind each. A name over 32 bytes and an empty tx hash — two
different violated bounds — are both reported as `InvalidMetadataUri`. -/
theorem distinct_error_kinds_counterexample :
    receive_cross_chain demo_init 7 9 60 0 2 [1] [1] (List.replicate 33 0)
        [3] [4] [5] 5
      = .error (.nft .InvalidMetadataUri)
    ∧ receive_cross_chain demo_init 7 9 60 0 2 [] [1] [2] [3] [4] [5] 5
      = .error (.nft .InvalidMetadataUri) := by decide

/-- C8 amended: in `receive_cross_chain`, each of the six length-bound
violations is rejected, checked in source order, but with only two error
kinds: URI over 200 bytes, name over 32, symbol over 10, tx hash empty or
over 64, and original-owner bytes empty or over 64 are all reported as
`InvalidMetadataUri`, while a signature that is empty or over 128 bytes
is reported as `InvalidTssSignature`. -/
theorem length_bound_errors_amended (s : LedgerState) (a rc mint : Pubkey)
    (now : Int) (oc : Nat) (oh u nm sy ow sg : Bytes) (nonce : Nat)
    (hinit : s.program_state.is_initialized = true)
    (hpause : s.cross_chain_config.is_paused = false)
    (hmint : lookupNft s.nfts mint = none)
    (hrcpt : hasReceipt s.receipts oh nonce = false) :
    (u.length > 200 →
      receive_cross_chain s a rc mint now oc oh u nm sy ow sg nonce
        = .error (.nft .InvalidMetadataUri))
    ∧ (u.length ≤ 200 → nm.length > 32 →
      receive_cross_chain s a rc mint now oc oh u nm sy ow sg nonce
        = .error (.nft .InvalidMetadataUri))
    ∧ (u.length ≤ 200 → nm.length ≤ 32 → sy.length > 10 →
      receive_cross_chain s a rc mint now oc oh u nm sy ow sg nonce
        = .error (.nft .InvalidMetadataUri))
    ∧ (u.length ≤ 200 → nm.length ≤ 32 → sy.length ≤ 10 →
      ¬ (oh ≠ [] ∧ oh.length ≤ 64) →
      receive_cross_chain s a rc mint now oc oh u nm sy ow sg nonce
        = .error (.nft .InvalidMetadataUri))
    ∧ (u.length ≤ 200 → nm.length ≤ 32 → sy.length ≤ 10 →
      (oh ≠ [] ∧ oh.length ≤ 64) → ¬ (ow ≠ [] ∧ ow.length ≤ 64) →
      receive_cross_chain s a rc mint now oc oh u nm sy ow sg nonce
        = .error (.nft .InvalidMetadataUri))
    ∧ (u.length ≤ 200 → nm.length ≤ 32 → sy.length ≤ 10 →
      (oh ≠ [] ∧ oh.length ≤ 64) → (ow ≠ [] ∧ ow.length ≤ 64) →
      ¬ (sg ≠ [] ∧ sg.length ≤ 128) →
      receive_cross_chain s a rc mint now oc oh u nm sy ow sg nonce
        = .error (.nft .InvalidTssSignature)) := by
  have e1 : ¬ s.program_state.is_initialized = false := by simp [hinit]
  have e2 : ¬ s.cross_chain_config.is_paused = true := by simp [hpause]
  have e3 : ¬ (lookupNft s.nfts mint).isSome = true := by simp [hmint]
  have e4 : ¬ hasReceipt s.receipts oh nonce = true := by simp [hrcpt]
  refine ⟨?_, ?_, ?_, ?_, ?_, ?_⟩
  · intro hu
    unfold receive_cross_chain
    rw [if_neg e1, if_neg e2, if_neg e3, if_neg e4, if_pos hu]
  · intro hu hnm
    unfold receive_cross_chain
    rw [if_neg e1, if_neg e2, if_neg e3, if_neg e4, if_neg (by omega),
      if_pos hnm]
  · intro hu hnm hsy
    unfold receive_cross_chain
    rw [if_neg e1, if_neg e2, if_neg e3, if_neg e4, if_neg (by omega),
      if_neg (by omega), if_pos hsy]
  · intro hu hnm hsy hoh
    unfold receive_cross_chain
    rw [if_neg e1, if_neg e2, if_neg e3, if_neg e4, if_neg (by omega),
      if_neg (by omega), if_neg (by omega), if_pos hoh]
  · intro hu hnm hsy hoh how
    unfold receive_cross_chain
    rw [if_neg e1, if_neg e2, if_neg e3, if_neg e4, if_neg (by omega),
      if_neg (by omega), if_neg (by omega), if_neg (by simp [hoh.1, hoh.2]),
      if_pos how]
  · intro hu hnm hsy hoh how hsg
    unfold receive_cross_chain
    rw [if_neg e1, if_neg e2, if_neg e3, if_neg e4, if_neg (by omega),
      if_neg (by omega), if_neg (by omega), if_neg (by simp [hoh.1, hoh.2]),
      if_neg (by simp [how.1, how.2]), if_pos hsg]

set_option maxRecDepth 100000 in
/-- Concrete instantiation of `length_bound_errors_amended`: an over-long
URI and an over-long signature on `demo_init`. -/
theorem length_bound_errors_amended_witness :
    receive_cross_chain demo_init 7 9 60 0 2 [1] (List.replicate 201 0)
        [2] [3] [4] [5] 5
      = .error (.nft .InvalidMetadataUri)
    ∧ receive_cross_chain demo_init 7 9 60 0 2 [1] [1] [2] [3] [4]
        (List.replicate 129 0) 5
      = .error (.nft .InvalidTssSignature) :=
  ⟨(length_bound_errors_amended demo_init 7 9 60 0 2 [1]
      (List.replicate 201 0) [2] [3] [4] [5] 5
      (by decide) (by decide) (by decide) (by decide)).1 (by decide),
   (length_bound_errors_amended demo_init 7 9 60 0 2 [1] [1] [2] [3] [4]
      (List.replicate 129 0) 5
      (by decide) (by decide) (by decide) (by decide)).2.2.2.2.2
      (by decide) (by decide) (by decide) (by decide) (by decide) (by decide)⟩


/-- C9: every global-counter increment (`total_nfts_minted` in `mint_nft`
and `receive_cross_chain`, `cross_chain_transfers` in
`initiate_transfer`) is a checked addition: whenever the counter holds
the maximum `u64` value and the operation otherwise passes its checks, it
fails with `ArithmeticOverflow`; and on every success the counter becomes
exactly its old value plus one, stays inside the `u64` range, and never
wraps to 0. -/
theorem checked_counter_addition_spec :
    (∀ s a mint u nm sy cce now,
      s.program_state.is_initialized = true →
      lookupNft s.nfts mint = none →
      u.length ≤ 200 → nm.length ≤ 32 → sy.length ≤ 10 →
      s.program_state.total_nfts_minted = 2 ^ 64 - 1 →
      mint_nft s a mint u nm sy cce now = .error (.nft .ArithmeticOverflow))
    ∧ (∀ s a mint u nm sy cce now s2,
      mint_nft s a mint u nm sy cce now = .ok s2 →
      s2.program_state.total_nfts_minted
          = s.program_state.total_nfts_minted + 1
        ∧ s2.program_state.total_nfts_minted < 2 ^ 64
        ∧ s2.program_state.total_nfts_minted ≠ 0)
    ∧ (∀ s owner mint now dest recip nonce nftm,
      s.program_state.is_initialized = true →
      s.cross_chain_config.is_paused = false →
      lookupNft s.nfts mint = some nftm →
      nftm.cross_chain_enabled = true → nftm.is_locked = false →
      hasTransferRecord s.transfers mint nonce = false →
      1 ≤ lookupBalance s.balances mint owner →
      s.cross_chain_config.nonce_counter < nonce →
      recip.length ≤ 64 → recip ≠ [] →
      0 < dest → dest ≠ 7565164 →
      s.program_state.cross_chain_transfers = 2 ^ 64 - 1 →
      initiate_transfer s owner mint now dest recip nonce
        = .error (.nft .ArithmeticOverflow))
    ∧ (∀ s owner mint now dest recip nonce s2,
      initiate_transfer s owner mint now dest recip nonce = .ok s2 →
      s2.program_state.cross_chain_transfers
          = s.program_state.cross_chain_transfers + 1
        ∧ s2.program_state.cross_chain_transfers < 2 ^ 64
        ∧ s2.program_state.cross_chain_transfers ≠ 0)
    ∧ (∀ s a rc mint now oc oh u nm sy ow sg nonce,
      s.program_state.is_initialized = true →
      s.cross_chain_config.is_paused = false →
      lookupNft s.nfts mint = none →
      hasReceipt s.receipts oh nonce = false →
      u.length ≤ 200 → nm.length ≤ 32 → sy.length ≤ 10 →
      (oh ≠ [] ∧ oh.length ≤ 64) → (ow ≠ [] ∧ ow.length ≤ 64) →
      (sg ≠ [] ∧ sg.length ≤ 128) →
      s.program_state.total_nfts_minted = 2 ^ 64 - 1 →
      receive_cross_chain s a rc mint now oc oh u nm sy ow sg nonce
        = .error (.nft .ArithmeticOverflow))
    ∧ (∀ s a rc mint now oc oh u nm sy ow sg nonce s2,
      receive_cross_chain s a rc mint now oc oh u nm sy ow sg nonce = .ok s2 →
      s2.program_state.total_nfts_minted
          = s.program_state.total_nfts_minted + 1
        ∧ s2.program_state.total_nfts_minted < 2 ^ 64
        ∧ s2.program_state.total_nfts_minted ≠ 0) := by
  refine ⟨?_, ?_, ?_, ?_, ?_, ?_⟩
  · intro s a mint u nm sy cce now hinit hfresh hu hnm hsy hmax
    unfold mint_nft
    rw [if_neg (by simp [hinit]), if_neg (by simp [hfresh]),
      if_neg (by omega), if_neg (by omega), if_neg (by omega)]
    simp only []
    have hc : checked_add s.program_state.total_nfts_minted 1 = none := by
      unfold checked_add
      rw [hmax, if_neg (by decide)]
    rw [hc]
  · intro s a mint u nm sy cce now s2 h
    obtain ⟨_, h2, h3, _⟩ := mint_nft_ok_inv s a mint u nm sy cce now s2 h
    exact ⟨h2, by omega, by omega⟩
  · intro s owner mint now dest recip nonce nftm hinit hpause hnft hen hlock
      hrec hbal hn hr1 hr2 hd1 hd2 hmax
    have hbal2 : ¬ lookupBalance s.balances mint owner < 1 := by omega
    unfold initiate_transfer
    rw [if_neg (by simp [hinit]), if_neg (by simp [hpause]), hnft]
    show initiate_transfer_checked s owner mint now dest recip nonce nftm
        = .error (.nft .ArithmeticOverflow)
    unfold initiate_transfer_checked
    rw [if_neg (by simp [hen]), if_neg (by simp [hlock]),
      if_neg (by simp [hrec]), if_neg hbal2, if_neg (by omega),
      if_neg (by simp [hr1, hr2]), if_neg (by simp [hd1, hd2])]
    simp only []
    have hc : checked_add s.program_state.cross_chain_transfers 1 = none := by
      unfold checked_add
      rw [hmax, if_neg (by decide)]
    rw [hc]
  · intro s owner mint now dest recip nonce s2 h
    obtain ⟨_, _, _, h4, h5⟩ :=
      initiate_transfer_ok_inv s owner mint now dest recip nonce s2 h
    exact ⟨h4, by omega, by omega⟩
  · intro s a rc mint now oc oh u nm sy ow sg nonce hinit hpause hfresh hrcpt
      hu hnm hsy hoh how hsg hmax
    unfold receive_cross_chain
    rw [if_neg (by simp [hinit]), if_neg (by simp [hpause]),
      if_neg (by simp [hfresh]), if_neg (by simp [hrcpt]),
      if_neg (by omega), if_neg (by omega), if_neg (by omega),
      if_neg (by simp [hoh.1, hoh.2]), if_neg (by simp [how.1, how.2]),
      if_neg (by simp [hsg.1, hsg.2])]
    simp only []
    rw [show verify_tss_signature (build_transfer_message oc oh u nm sy ow nonce)
        sg s.cross_chain_config.tss_address = .ok true from by
      unfold verify_tss_signature
      rw [if_neg hsg.1, if_neg (build_transfer_message_ne_nil oc oh u nm sy ow nonce)]]
    show (if (true : Bool) = false then _ else _) = _
    rw [if_neg (by simp)]
    try simp only []
    have hc : checked_add s.program_state.total_nfts_minted 1 = none := by
      unfold checked_add
      rw [hmax, if_neg (by decide)]
    rw [hc]
  · intro s a rc mint now oc oh u nm sy ow sg nonce s2 h
    obtain ⟨_, h2, h3, _⟩ :=
      receive_ok_inv s a rc mint now oc oh u nm sy ow sg nonce s2 h
    exact ⟨h2, by omega, by omega⟩


/-- Demo fixture: `demo_init` after a successful inbound receipt minting
mint 60 from chain 2 with nonce 5. -/
def demo_received : LedgerState :=
  commit_receive_cross_chain demo_init 7 9 60 0 2 [1] [1] [2] [3] [4] [5] 5

set_option maxHeartbeats 2000000 in
/-- Concrete instantiation of `checked_counter_addition_spec` on the demo
fixtures, including the `u64`-maximum counters of `demo_max`. -/
theorem checked_counter_addition_spec_witness :
    mint_nft demo_max 7 99 [1] [2] [3] true 0
      = .error (.nft .ArithmeticOverflow)
    ∧ (demo_one_nft.program_state.total_nfts_minted
        = demo_init.program_state.total_nfts_minted + 1
      ∧ demo_one_nft.program_state.total_nfts_minted < 2 ^ 64
      ∧ demo_one_nft.program_state.total_nfts_minted ≠ 0)
    ∧ initiate_transfer demo_max 7 50 5 2 [170] 5
      = .error (.nft .ArithmeticOverflow)
    ∧ (demo_after_first.program_state.cross_chain_transfers
        = demo_two_nfts.program_state.cross_chain_transfers + 1
      ∧ demo_after_first.program_state.cross_chain_transfers < 2 ^ 64
      ∧ demo_after_first.program_state.cross_chain_transfers ≠ 0)
    ∧ receive_cross_chain demo_max 7 9 99 0 2 [1] [1] [2] [3] [4] [5] 5
      = .error (.nft .ArithmeticOverflow)
    ∧ (demo_received.program_state.total_nfts_minted
        = demo_init.program_state.total_nfts_minted + 1
      ∧ demo_received.program_state.total_nfts_minted < 2 ^ 64
      ∧ demo_received.program_state.total_nfts_minted ≠ 0) :=
  ⟨checked_counter_addition_spec.1 demo_max 7 99 [1] [2] [3] true 0
      (by decide) (by decide) (by decide) (by decide) (by decide) (by decide),
   checked_counter_addition_spec.2.1 demo_init 7 50 [1] [2] [3] true 0
      demo_one_nft (by decide),
   checked_counter_addition_spec.2.2.1 demo_max 7 50 5 2 [170] 5
      { mint := 50, original_owner := 7, current_owner := 7,
        metadata_uri := [1], name := [2], symbol := [3],
        cross_chain_enabled := true, is_locked := false,
        origin_chain_id := 7565164, creation_timestamp := 0 }
      (by decide) (by decide) (by decide) (by decide) (by decide) (by decide)
      (by decide) (by decide) (by decide) (by decide) (by decide) (by decide)
      (by decide),
   checked_counter_addition_spec.2.2.2.1 demo_two_nfts 7 50 5 2 [170] 5
      demo_after_first (by decide),
   checked_counter_addition_spec.2.2.2.2.1 demo_max 7 9 99 0 2 [1] [1] [2]
      [3] [4] [5] 5 (by decide) (by decide) (by decide) (by decide)
      (by decide) (by decide) (by decide) (by decide) (by decide) (by decide)
      (by decide),
   checked_counter_addition_spec.2.2.2.2.2 demo_init 7 9 60 0 2 [1] [1] [2]
      [3] [4] [5] 5 demo_received (by decide)⟩

end UniversalNft
